import Mathlib

/-!
Verification of the candlestick pattern detector in `scripts/candles pattern.py`.

The script operates on a pandas DataFrame with numeric columns O, H, L, C.
We embed a row as a `Candle` of rationals and the DataFrame as a `List Candle`;
the vectorized Series operations become elementwise functions / list maps, and
pandas `NA` propagation (`replace(0, pd.NA)` followed by `fillna(False)`) becomes
explicit case splits.  Python code that raises an exception is embedded in
`Except String`.
-/

/-- One OHLC row of the DataFrame (columns O, H, L, C after normalization). -/
structure Candle where
  «open» : ℚ
  high : ℚ
  low : ℚ
  close : ℚ
deriving DecidableEq

/-- `detect_doji`, read elementwise: `body = (O - C).abs()`,
`rng = (H - L).abs().replace(0, pd.NA)`, `is_doji = body < threshold * rng`,
`is_doji.fillna(False)`.  When `rng` is 0 it is replaced by `NA`; the comparison
with `NA` yields `NA`, and `fillna(False)` turns that row into `False`. -/
def detect_doji (threshold : ℚ) (c : Candle) : Bool :=
  let body := |c.«open» - c.close|
  let rng := |c.high - c.low|
  if rng = 0 then false else decide (body < threshold * rng)

/-- The mask `prev_bear & curr_bull & (df["O"] <= prev["C"]) & (df["C"] >= prev["O"])`
from `detect_engulfing`, evaluated for one (prev, curr) row pair. -/
def be_mask (prev curr : Candle) : Bool :=
  decide (prev.close < prev.«open») && decide (curr.close > curr.«open») &&
  decide (curr.«open» ≤ prev.close) && decide (curr.close ≥ prev.«open»)

/-- The mask `prev_bull & curr_bear & (df["O"] >= prev["C"]) & (df["C"] <= prev["O"])`
from `detect_engulfing`, evaluated for one (prev, curr) row pair. -/
def se_mask (prev curr : Candle) : Bool :=
  decide (prev.close > prev.«open») && decide (curr.close < curr.«open») &&
  decide (curr.«open» ≥ prev.close) && decide (curr.close ≤ prev.«open»)

/-- One row of `detect_engulfing`'s output for a row with a predecessor:
the Series starts as `""`, rows matching `be_mask` are set to
`"Bullish Engulfing"`, then rows matching `se_mask` are set to
`"Bearish Engulfing"` (the later assignment wins where both masks held). -/
def engulfPair (prev curr : Candle) : String :=
  if se_mask prev curr then "Bearish Engulfing"
  else if be_mask prev curr then "Bullish Engulfing"
  else ""

/-- Rows 1.. of `detect_engulfing`: each row paired with its predecessor. -/
def engulfAux (prev : Candle) : List Candle → List String
  | [] => []
  | c :: cs => engulfPair prev c :: engulfAux c cs

/-- `detect_engulfing`: `prev = df.shift(1)` makes every comparison on the first
row a comparison with `NaN`, which is `False`, so the first row keeps the
initial `""`; every later row is classified against its predecessor. -/
def detect_engulfing : List Candle → List String
  | [] => []
  | c :: cs => "" :: engulfAux c cs

/-- The `AttributeError` message Python raises inside `detect_hammer`. -/
def hammerAttrError : String := "AttributeError: list object has no attribute min"

/-- The statement `lower_wick = (df[["O", "C"].min(axis=1) - df["L"]]).abs()` of
`detect_hammer`.  Note the misplaced bracket: `["O", "C"].min(axis=1)` invokes
`.min` on the Python list `["O", "C"]`, which has no such attribute, so this
statement raises `AttributeError` unconditionally, independent of the data. -/
def lower_wick_series (_cs : List Candle) : Except String (List ℚ) :=
  Except.error hammerAttrError

/-- The remaining comparisons of `detect_hammer` for one row, given a lower-wick
value: `small_body = body <= body_to_range * rng`,
`strong_lower = lower_wick >= lower_wick_min * body.clip(lower=1e-9)`,
`small_upper = upper_wick <= body * lower_wick_min`, combined with `&` and
`fillna(False)` (a 0 range was replaced by `NA`, making the row `False`).
This code is unreachable in the script because `lower_wick_series` raises. -/
def hammer_from_wicks (body_to_range lower_wick_min : ℚ) (c : Candle)
    (lower_wick : ℚ) : Bool :=
  let body := |c.«open» - c.close|
  let upper_wick := |c.high - max c.«open» c.close|
  let rng := |c.high - c.low|
  if rng = 0 then false
  else decide (body ≤ body_to_range * rng) &&
    decide (lower_wick ≥ lower_wick_min * max body (1 / 1000000000)) &&
    decide (upper_wick ≤ body * lower_wick_min)

/-- `detect_hammer(df, body_to_range=0.25, lower_wick_min=2.0)`: computes body and
upper wick, then evaluates the `lower_wick` statement, which raises
`AttributeError` before any comparison is made, so the function never returns. -/
def detect_hammer (body_to_range lower_wick_min : ℚ) (cs : List Candle) :
    Except String (List Bool) :=
  (lower_wick_series cs).bind fun lower_wick =>
    Except.ok ((cs.zip lower_wick).map fun p =>
      hammer_from_wicks body_to_range lower_wick_min p.1 p.2)

/-- Python's `", ".join(parts)`. -/
def joinComma : List String → String
  | [] => ""
  | s :: rest => if rest.isEmpty then s else s ++ ", " ++ joinComma rest

/-- The row-wise `_combine` closure of `detect_patterns`: append `"Doji"` if the
Doji flag is set, `"HammerLike"` if the hammer flag is set, and the Engulfing
string if it is truthy (non-empty), then join with `", "`. -/
def combineRow (doji hammerLike : Bool) (engulfing : String) : String :=
  let parts : List String :=
    (if doji then ["Doji"] else []) ++
    (if hammerLike then ["HammerLike"] else []) ++
    (if engulfing = "" then [] else [engulfing])
  joinComma parts

/-- One row of the DataFrame returned by `detect_patterns`: the original row
plus the four appended columns Doji, HammerLike, Engulfing, Pattern. -/
structure ResultRow where
  candle : Candle
  doji : Bool
  hammerLike : Bool
  engulfing : String
  pattern : String
deriving DecidableEq

/-- Assembles the rows of `detect_patterns`'s result by zipping the per-column
Series (unreachable in the script, since `detect_hammer` raises first). -/
def combineAll : List Candle → List Bool → List Bool → List String → List ResultRow
  | c :: cs, d :: ds, h :: hs, e :: es =>
    { candle := c, doji := d, hammerLike := h, engulfing := e,
      pattern := combineRow d h e } :: combineAll cs ds hs es
  | _, _, _, _ => []

/-- `detect_patterns`: copies the frame, assigns the `Doji` column, then the
`HammerLike` column — whose computation raises `AttributeError` — so the
`Engulfing` and `Pattern` assignments are never reached and no DataFrame is
ever returned. -/
def detect_patterns (cs : List Candle) : Except String (List ResultRow) :=
  let dojis := cs.map (detect_doji (1 / 10))
  (detect_hammer (1 / 4) 2 cs).bind fun hammers =>
    let engs := detect_engulfing cs
    Except.ok (combineAll cs dojis hammers engs)

/-- The four required column names checked by `_normalize_cols`, in loop order. -/
def requiredCols : List String := ["open", "high", "low", "close"]

/-- ASCII lowercasing of one character, as Python's `str.lower()` acts on the
column names in play (all ASCII). -/
def lowerChar (ch : Char) : Char :=
  if 65 ≤ ch.toNat ∧ ch.toNat ≤ 90 then Char.ofNat (ch.toNat + 32) else ch

/-- Python's `c.lower()` on a column name. -/
def strLower (s : String) : String := String.mk (s.data.map lowerChar)

/-- `name in cols` where `cols = {c.lower(): c for c in df.columns}`: some column
name lowercases to `name`. -/
def hasLower (columns : List String) (name : String) : Bool :=
  columns.any fun c => strLower c == name

/-- The `KeyError` message raised by `_normalize_cols` for a missing column
(Python wraps the name in single quotes, elided here). -/
def missingMsg (name : String) : String :=
  "Input CSV must contain column " ++ name ++ " (case-insensitive)"

/-- `cols[name]`: the dict comprehension keeps the last column whose lowercase
form is `name`. -/
def colsDictLookup (columns : List String) (name : String) : Option String :=
  (columns.filter fun c => strLower c == name).getLast?

/-- The effect of `df.rename(columns=mapping)` on one column name, where
`mapping` sends `cols[name]` to `name[0].upper()` for each required `name`. -/
def renameCol (columns : List String) (c : String) : String :=
  if colsDictLookup columns "open" = some c then "O"
  else if colsDictLookup columns "high" = some c then "H"
  else if colsDictLookup columns "low" = some c then "L"
  else if colsDictLookup columns "close" = some c then "C"
  else c

/-- `_normalize_cols`, on the list of column names: the loop over
`("open", "high", "low", "close")` raises `KeyError` at the first name with no
case-insensitive match; otherwise the frame is renamed and returned. -/
def _normalize_cols (columns : List String) : Except String (List String) :=
  if hasLower columns "open" = false then Except.error (missingMsg "open")
  else if hasLower columns "high" = false then Except.error (missingMsg "high")
  else if hasLower columns "low" = false then Except.error (missingMsg "low")
  else if hasLower columns "close" = false then Except.error (missingMsg "close")
  else Except.ok (columns.map (renameCol columns))

/-- Outcome of the column-validation stage of `main`: either the `KeyError` was
caught, its message printed to stderr and `2` returned — before any output is
written — or the check passed and `main` proceeds with the renamed frame. -/
inductive ColCheck where
  | missingColumn (msg : String) (exitCode : Nat)
  | proceeded (renamed : List String)
deriving DecidableEq

/-- The `try: df = _normalize_cols(df) except KeyError: ... return 2` stage of
`main`.  On the error path `main` returns before `detect_patterns` and before
any `to_csv` call, so nothing is written. -/
def main_column_stage (columns : List String) : ColCheck :=
  match _normalize_cols columns with
  | Except.error msg => ColCheck.missingColumn msg 2
  | Except.ok renamed => ColCheck.proceeded renamed

/-- The combined label as §4.4 and §6 of the specification word it: the fired
tag names joined by the exact separator `", "` in the fixed order Doji,
HammerLike, Engulfing — the Engulfing entry being that rule's own tag string —
and the empty string when no rule fired. -/
def patternLabel (doji hammerLike : Bool) (engulfing : String) : String :=
  match doji, hammerLike with
  | false, false => if engulfing = "" then "" else engulfing
  | true, false => if engulfing = "" then "Doji" else "Doji" ++ ", " ++ engulfing
  | false, true =>
    if engulfing = "" then "HammerLike" else "HammerLike" ++ ", " ++ engulfing
  | true, true =>
    if engulfing = "" then "Doji, HammerLike"
    else "Doji, HammerLike" ++ ", " ++ engulfing

/-! ### Helper lemmas -/

lemma str_append_assoc (a b c : String) : a ++ b ++ c = a ++ (b ++ c) := by
  rcases a with ⟨la⟩; rcases b with ⟨lb⟩; rcases c with ⟨lc⟩
  show String.mk (la ++ lb ++ lc) = String.mk (la ++ (lb ++ lc))
  rw [List.append_assoc]

lemma doji_char (threshold : ℚ) (c : Candle) :
    detect_doji threshold c = true ↔
      0 < |c.high - c.low| ∧ |c.«open» - c.close| < threshold * |c.high - c.low| := by
  by_cases h : |c.high - c.low| = 0 <;> simp [detect_doji, h]
  exact fun _ hz => h (by rw [hz, abs_zero])

lemma be_mask_eq_true (p c : Candle) :
    be_mask p c = true ↔
      p.close < p.«open» ∧ c.close > c.«open» ∧ c.«open» ≤ p.close ∧
        c.close ≥ p.«open» := by
  simp [be_mask, and_assoc]

lemma se_mask_eq_true (p c : Candle) :
    se_mask p c = true ↔
      p.close > p.«open» ∧ c.close < c.«open» ∧ c.«open» ≥ p.close ∧
        c.close ≤ p.«open» := by
  simp [se_mask, and_assoc]

lemma masks_exclusive (p c : Candle) : (be_mask p c && se_mask p c) = false := by
  cases hb : be_mask p c
  · simp
  · cases hs : se_mask p c
    · simp
    · exfalso
      have h1 := (be_mask_eq_true p c).mp hb
      have h2 := (se_mask_eq_true p c).mp hs
      exact absurd h1.2.1 (asymm h2.2.1)

/-! ### Claim theorems -/

/-- C1: the claim states the Hammer-Like rule returns a Boolean classification
and returns false on zero range without raising an error.  The code instead
raises `AttributeError` on every input: the `lower_wick` statement indexes the
frame with `["O", "C"].min(axis=1)`, calling `.min` on a Python list.  Here the
code is evaluated at a concrete one-row frame and shown to error. -/
theorem detect_hammer_raises_attribute_error :
    detect_hammer (1 / 4) 2 [⟨10, 12, 9, 11⟩] = Except.error hammerAttrError := rfl

/-- C2: the Doji rule returns true iff `range > 0` and `body < threshold * range`
with `body = |open - close|` and `range = |high - low|`; in particular a zero
range yields false rather than an error. -/
theorem detect_doji_characterization (threshold : ℚ) (c : Candle) :
    detect_doji threshold c = true ↔
      0 < |c.high - c.low| ∧ |c.«open» - c.close| < threshold * |c.high - c.low| :=
  doji_char threshold c

/-- Witness for C2 at the spec's concrete scenario 2:
open 10, high 10.5, low 9.95, close 10.02, threshold 0.1. -/
theorem detect_doji_characterization_witness :
    detect_doji (1 / 10) ⟨10, 21 / 2, 199 / 20, 501 / 50⟩ = true :=
  (detect_doji_characterization (1 / 10) ⟨10, 21 / 2, 199 / 20, 501 / 50⟩).mpr
    ⟨by norm_num, by norm_num [abs_of_nonneg]⟩

/-- C3: per (prev, curr) pair the Engulfing rule yields `"Bullish Engulfing"`
iff prev is bearish, curr is bullish and curr's body spans prev's body;
`"Bearish Engulfing"` iff the mirrored conditions hold; `""` otherwise; and a
flat candle (open = close) in either role forces `""`. -/
theorem engulfing_pair_classification (p c : Candle) :
    (engulfPair p c = "Bullish Engulfing" ↔
      p.close < p.«open» ∧ c.close > c.«open» ∧ c.«open» ≤ p.close ∧
        c.close ≥ p.«open») ∧
    (engulfPair p c = "Bearish Engulfing" ↔
      p.close > p.«open» ∧ c.close < c.«open» ∧ c.«open» ≥ p.close ∧
        c.close ≤ p.«open») ∧
    (¬(p.close < p.«open» ∧ c.close > c.«open» ∧ c.«open» ≤ p.close ∧
        c.close ≥ p.«open») ∧
      ¬(p.close > p.«open» ∧ c.close < c.«open» ∧ c.«open» ≥ p.close ∧
        c.close ≤ p.«open») →
      engulfPair p c = "") ∧
    ((p.«open» = p.close ∨ c.«open» = c.close) → engulfPair p c = "") := by
  cases hs : se_mask p c
  · cases hb : be_mask p c
    · have he : engulfPair p c = "" := by simp [engulfPair, hs, hb]
      refine ⟨?_, ?_, fun _ => he, fun _ => he⟩
      · rw [he]
        constructor
        · intro h; exact absurd h (by decide)
        · intro h
          exact absurd ((be_mask_eq_true p c).mpr h) (by rw [hb]; decide)
      · rw [he]
        constructor
        · intro h; exact absurd h (by decide)
        · intro h
          exact absurd ((se_mask_eq_true p c).mpr h) (by rw [hs]; decide)
    · have he : engulfPair p c = "Bullish Engulfing" := by
        simp [engulfPair, hs, hb]
      have hprop := (be_mask_eq_true p c).mp hb
      refine ⟨?_, ?_, ?_, ?_⟩
      · rw [he]; exact ⟨fun _ => hprop, fun _ => rfl⟩
      · rw [he]
        constructor
        · intro h; exact absurd h (by decide)
        · intro h
          exact absurd ((se_mask_eq_true p c).mpr h) (by rw [hs]; decide)
      · intro h; exact absurd hprop h.1
      · intro h
        exfalso
        rcases h with h | h
        · exact absurd hprop.1 (by rw [h]; exact lt_irrefl _)
        · exact absurd hprop.2.1 (by rw [h]; exact lt_irrefl _)
  · have he : engulfPair p c = "Bearish Engulfing" := by simp [engulfPair, hs]
    have hprop := (se_mask_eq_true p c).mp hs
    refine ⟨?_, ?_, ?_, ?_⟩
    · rw [he]
      constructor
      · intro h; exact absurd h (by decide)
      · intro h; exact absurd h.2.1 (asymm hprop.2.1)
    · rw [he]; exact ⟨fun _ => hprop, fun _ => rfl⟩
    · intro h; exact absurd hprop h.2
    · intro h
      exfalso
      rcases h with h | h
      · exact absurd hprop.1 (by rw [h]; exact lt_irrefl _)
      · exact absurd hprop.2.1 (by rw [h]; exact lt_irrefl _)

/-- Witness for C3, at the spec's concrete scenario 3:
prev (12, 12.2, 10, 10.5) bearish, curr (10.2, 12.5, 10, 12.3) bullish. -/
theorem engulfing_pair_classification_witness :
    engulfPair ⟨12, 61 / 5, 10, 21 / 2⟩ ⟨51 / 5, 25 / 2, 10, 123 / 10⟩ =
      "Bullish Engulfing" :=
  (engulfing_pair_classification ⟨12, 61 / 5, 10, 21 / 2⟩
      ⟨51 / 5, 25 / 2, 10, 123 / 10⟩).1.mpr
    ⟨by norm_num, by norm_num, by norm_num, by norm_num⟩

/-- C4: the first record of any non-empty sequence gets Engulfing `""` (None)
unconditionally, whatever its field values. -/
theorem detect_engulfing_first_row_none (c : Candle) (cs : List Candle) :
    (detect_engulfing (c :: cs)).head? = some "" := rfl

/-- C5: the Bullish and Bearish branch conditions of the Engulfing rule are
mutually exclusive for all field values, so no record is ever classified as
both. -/
theorem engulfing_masks_mutually_exclusive (p c : Candle) :
    (be_mask p c && se_mask p c) = false :=
  masks_exclusive p c

/-- C6: the combined Pattern label equals the fired tag names joined by the
exact separator `", "` in the fixed order Doji, HammerLike, Engulfing (with the
Engulfing rule's own tag string), and is `""` when no rule fired —
`patternLabel` is that specification-side table. -/
theorem combine_label_spec (d h : Bool) (e : String) :
    combineRow d h e = patternLabel d h e := by
  by_cases he : e = ""
  · subst he
    cases d <;> cases h <;> rfl
  · cases d <;> cases h <;>
      simp only [combineRow, patternLabel, joinComma, he, if_false, if_true,
        ite_false, ite_true, List.append_eq, List.nil_append, List.append_nil,
        List.cons_append, List.isEmpty_nil, List.isEmpty_cons,
        Bool.false_eq_true]
    rw [show ("Doji, HammerLike" : String) = "Doji" ++ ", " ++ "HammerLike" from
      rfl]
    simp only [str_append_assoc]

/-- C7: the claim states `detect_patterns` returns the input rows augmented with
four new columns.  The code never returns a frame at all: the `HammerLike`
column assignment calls `detect_hammer`, which raises `AttributeError` on every
input.  Here the code is evaluated at a concrete one-row frame and shown to
error instead of producing any output. -/
theorem detect_patterns_produces_no_output :
    detect_patterns [⟨10, 21 / 2, 199 / 20, 501 / 50⟩] =
      Except.error hammerAttrError := rfl

/-- C8: the claim states the detector completes without raising on every input,
including degenerate geometry.  The code raises `AttributeError` on every
input, here evaluated at the fully flat candle (10, 10, 10, 10). -/
theorem detect_patterns_raises_attribute_error :
    detect_patterns [⟨10, 10, 10, 10⟩] = Except.error hammerAttrError := rfl

/-- C9: if any of the four required columns is absent after case-insensitive
matching, `main`'s column stage reports that missing column's message and
returns exit code 2 — which differs from the success code 0 — before writing
any output; if all four are present the column check succeeds and `main`
proceeds with the renamed frame. -/
theorem missing_column_check (columns : List String) :
    ((∃ name, name ∈ requiredCols ∧ hasLower columns name = false) →
      ∃ name, name ∈ requiredCols ∧ hasLower columns name = false ∧
        main_column_stage columns = ColCheck.missingColumn (missingMsg name) 2 ∧
        (2 : Nat) ≠ 0) ∧
    ((∀ name, name ∈ requiredCols → hasLower columns name = true) →
      ∃ renamed, main_column_stage columns = ColCheck.proceeded renamed) := by
  constructor
  · intro hmiss
    by_cases h1 : hasLower columns "open" = false
    · exact ⟨"open", by simp [requiredCols], h1,
        by simp [main_column_stage, _normalize_cols, h1], by decide⟩
    · by_cases h2 : hasLower columns "high" = false
      · exact ⟨"high", by simp [requiredCols], h2,
          by simp [main_column_stage, _normalize_cols, h1, h2], by decide⟩
      · by_cases h3 : hasLower columns "low" = false
        · exact ⟨"low", by simp [requiredCols], h3,
            by simp [main_column_stage, _normalize_cols, h1, h2, h3], by decide⟩
        · by_cases h4 : hasLower columns "close" = false
          · exact ⟨"close", by simp [requiredCols], h4,
              by simp [main_column_stage, _normalize_cols, h1, h2, h3, h4],
              by decide⟩
          · exfalso
            rcases hmiss with ⟨name, hmem, hfalse⟩
            simp [requiredCols] at hmem
            rcases hmem with rfl | rfl | rfl | rfl
            · exact h1 hfalse
            · exact h2 hfalse
            · exact h3 hfalse
            · exact h4 hfalse
  · intro hall
    have h1 := hall "open" (by simp [requiredCols])
    have h2 := hall "high" (by simp [requiredCols])
    have h3 := hall "low" (by simp [requiredCols])
    have h4 := hall "close" (by simp [requiredCols])
    exact ⟨columns.map (renameCol columns),
      by simp [main_column_stage, _normalize_cols, h1, h2, h3, h4]⟩

/-- Witness for C9: the frame with columns Date, Open, High, Low is missing
`close`, is reported as such and exits with code 2. -/
theorem missing_column_check_witness :
    ∃ name, name ∈ requiredCols ∧
      hasLower ["Date", "Open", "High", "Low"] name = false ∧
      main_column_stage ["Date", "Open", "High", "Low"] =
        ColCheck.missingColumn (missingMsg name) 2 ∧ (2 : Nat) ≠ 0 :=
  (missing_column_check ["Date", "Open", "High", "Low"]).1
    ⟨"close", by decide, by decide⟩

/-- C10: a zero-body candle (open = close) with any nonzero range is classified
as a Doji for every positive threshold, with no lower bound on the range. -/
theorem doji_zero_body_nonzero_range (threshold : ℚ) (c : Candle)
    (hb : c.«open» = c.close) (hr : c.high ≠ c.low) (ht : 0 < threshold) :
    detect_doji threshold c = true := by
  refine (doji_char threshold c).mpr ⟨?_, ?_⟩
  · exact abs_pos.mpr (sub_ne_zero.mpr hr)
  · rw [hb, sub_self, abs_zero]
    exact mul_pos ht (abs_pos.mpr (sub_ne_zero.mpr hr))

/-- Witness for C10: open = close = 10, a tiny range of 1/1000000, threshold
1/10. -/
theorem doji_zero_body_nonzero_range_witness :
    detect_doji (1 / 10) ⟨10, 10 + 1 / 1000000, 10, 10⟩ = true :=
  doji_zero_body_nonzero_range (1 / 10) ⟨10, 10 + 1 / 1000000, 10, 10⟩ rfl
    (by norm_num) (by norm_num)
